import Mathlib

/-!
# Scoring & Readiness Engine — shallow embedding

A shallow embedding of the Scoring & Readiness Engine of the Leadership
Intelligence Wrapper repository.  The repository ships the engine's
documentation inside `src/App.tsx` (the `calculate_rigor_score` pseudocode
and the weight tables) and the database DDL inside
`src/backend/P1_FEATURES.md`; the service implementations
(`backend/services/rigor_score.py`, `backend/services/readiness_engine.py`)
are not part of the source tree.  Definitions below that embed those missing
services are modelled from the specification (spec.md §4–§7) and are marked
as such; the weight tables, score formulas and DDL constraints follow the
documents in the source tree.

Scores are embedded as rationals (`ℚ`): the documented arithmetic is exact
real arithmetic over fixed decimal constants (0.4 = 2/5, 1.5 = 3/2, …).
-/

namespace LIW

/-- Modelled from the spec (§3, src/App.tsx "Source Type Weights"): the fixed
enumeration of document types; unknown type tags are carried as strings so the
weight table can default them without error. -/
inductive SourceType where
  | finalPDF
  | presentation
  | spreadsheet
  | transcript
  | draftDocument
  | unknown (tag : String)
deriving Repr, DecidableEq

/-- Modelled from the spec (§3): a Source's status. -/
inductive Status where
  | draft
  | final
  | archived
deriving Repr, DecidableEq

/-- Modelled from the spec (§3): the Source metadata the engine reads —
type, authority flag, status, age in days since the document date (none when
the document date is missing), and the extracted plain text as a word list
(the engine receives already-extracted text, §1). -/
structure Source where
  srcType : SourceType
  authoritative : Bool
  status : Status
  ageDays : Option ℕ
  words : List String
deriving Repr, DecidableEq

/-- src/App.tsx (§4.1 of the spec): authority multiplier — 1.5 when the
source is flagged authoritative, else 1.0. -/
def authorityMultiplier (authoritative : Bool) : ℚ :=
  if authoritative then 3/2 else 1

/-- src/App.tsx "Source Type Weights": final-PDF 1.0, presentation 0.9,
spreadsheet 0.8, transcript 0.6, draft-document 0.5; unknown types default
to the lowest tier (§4.1) and never raise an error. -/
def typeWeight : SourceType → ℚ
  | .finalPDF => 1
  | .presentation => 9/10
  | .spreadsheet => 4/5
  | .transcript => 3/5
  | .draftDocument => 1/2
  | .unknown _ => 1/2

/-- §4.1: status weight — final 1.0, draft 0.7, archived 0.4. -/
def statusWeight : Status → ℚ
  | .final => 1
  | .draft => 7/10
  | .archived => 2/5

/-- src/App.tsx "Recency Boost" (§4.1): by age in days — <30 → 1.2,
30–90 → 1.1, 90–180 → 1.05, >180 → 1.0; a missing document date gives 1.0. -/
def recencyBoost : Option ℕ → ℚ
  | none => 1
  | some d =>
    if d < 30 then 6/5
    else if d ≤ 90 then 11/10
    else if d ≤ 180 then 21/20
    else 1

/-- §4.1: the Veracity Calculator's per-source factor
`authorityMultiplier × typeWeight × statusWeight × recencyBoost`. -/
def factor (s : Source) : ℚ :=
  authorityMultiplier s.authoritative * typeWeight s.srcType
    * statusWeight s.status * recencyBoost s.ageDays

/-- Modelled from the spec (§3): one entry of an Analysis's weighted source
set — the Source together with its per-analysis weight. -/
structure WeightedSource where
  source : Source
  weight : ℚ
deriving Repr, DecidableEq

/-- Modelled from the spec (§4.1): the normalization constant scales the
average weighted factor so that a single maximally-weighted (weight 1.0)
authoritative final PDF under 30 days old — factor 9/5 — yields 100. -/
def veracityNorm : ℚ := 100 / (9/5)

/-- Modelled from the spec (§4.1, src/App.tsx `V = Σ(...)/SourceCount`):
raw veracity score — the average of factor × per-analysis weight across
sources, scaled by the normalization constant; an empty source set gives 0
rather than dividing by zero. -/
def rawVeracity (sources : List WeightedSource) : ℚ :=
  if sources.length = 0 then 0
  else
    ((sources.map (fun ws => factor ws.source * ws.weight)).sum
        / (sources.length : ℚ)) * veracityNorm

/-- §4.2: conflict severities on the ordinal scale. -/
inductive Severity where
  | minor
  | moderate
  | severe
deriving Repr, DecidableEq

/-- §4.2: the numeric penalty of a conflict severity (5 / 15 / 30). -/
def severityPenalty : Severity → ℚ
  | .minor => 5
  | .moderate => 15
  | .severe => 30

/-- Modelled from the spec (§4.2): the pairs of distinct sources the
Conflict Detector submits to the reasoning oracle.  With no sources or a
single source there are no pairs. -/
def sourcePairs : List WeightedSource → List (WeightedSource × WeightedSource)
  | [] => []
  | s :: rest => rest.map (fun t => (s, t)) ++ sourcePairs rest

/-- Modelled from the spec (§4.2, src/App.tsx `C = max(0, 100 - Σ)`): raw
conflict score — 100 minus the summed penalties of the conflicts the oracle
reports on each pair, floored at 0. -/
def rawConflict (oracle : WeightedSource → WeightedSource → List Severity)
    (sources : List WeightedSource) : ℚ :=
  max 0 (100 -
    ((sourcePairs sources).map
      (fun p => ((oracle p.1 p.2).map severityPenalty).sum)).sum)

/-- §4.3: the fixed list of executive-reasoning indicator terms
(src/App.tsx "Executive Keywords"). -/
def keywords : List String :=
  ["risk", "tradeoff", "alternative", "mitigation", "contingency",
   "impact", "evidence", "data-driven", "rationale", "stakeholder"]

/-- §4.3: the concatenated source text of an Analysis, as a word list. -/
def concatWords (sources : List WeightedSource) : List String :=
  sources.flatMap (fun ws => ws.source.words)

/-- §4.3: the total word count of the concatenated source text. -/
def totalWordCount (sources : List WeightedSource) : ℕ :=
  (concatWords sources).length

/-- §4.3: lower-case a word character by character, so keyword matching is
case-insensitive. -/
def lowerWord (w : String) : String := ⟨w.data.map Char.toLower⟩

/-- §4.3: case-insensitive keyword matches in the concatenated text. -/
def matchCount (sources : List WeightedSource) : ℕ :=
  (concatWords sources).countP (fun w => keywords.contains (lowerWord w))

/-- Modelled from the spec (§4.3, src/App.tsx
`L = min(100, (KeywordCount/TotalWords) × 1000 × QualityMultiplier)`): raw
logic-presence score; zero total words gives 0 rather than a division
error. -/
def rawLogic (sources : List WeightedSource) (qualityMultiplier : ℚ) : ℚ :=
  if totalWordCount sources = 0 then 0
  else
    min 100
      ((matchCount sources : ℚ) / (totalWordCount sources : ℚ)
        * 1000 * qualityMultiplier)

/-- §4.4: clamp a component score to the interval [0,100]. -/
def clamp (x : ℚ) : ℚ := max 0 (min 100 x)

/-- Modelled from the spec (§7): warnings attached to a degraded-input run. -/
inductive Warning where
  | emptySourceSet
deriving Repr, DecidableEq

/-- Modelled from the spec (§6): the result object of a `score` call —
composite and component scores plus attached warnings. -/
structure ScoreResult where
  composite : ℚ
  veracity : ℚ
  conflict : ℚ
  logic : ℚ
  warnings : List Warning
deriving Repr, DecidableEq

/-- Modelled from the spec (§4.4, §6, §7): a full scoring run — compute the
three raw components, clamp each independently to [0,100], take the weighted
sum 0.4·V + 0.3·C + 0.3·L, and attach an `emptySourceSet` warning (not a
fatal error) when the source set is empty. -/
def scoreAnalysis (oracle : WeightedSource → WeightedSource → List Severity)
    (qualityMultiplier : ℚ) (sources : List WeightedSource) : ScoreResult :=
  let V := clamp (rawVeracity sources)
  let C := clamp (rawConflict oracle sources)
  let L := clamp (rawLogic sources qualityMultiplier)
  { composite := 2/5 * V + 3/10 * C + 3/10 * L
    veracity := V
    conflict := C
    logic := L
    warnings := if sources.length = 0 then [.emptySourceSet] else [] }

/-! ## Readiness Criterion Evaluator (spec §4.5) -/

/-- §3: a criterion's category. -/
inductive Category where
  | completeness
  | quality
  | consistency
deriving Repr, DecidableEq

/-- §3: one required criterion of a Prompt Pack — a name and a category. -/
structure Criterion where
  name : String
  category : Category
deriving Repr, DecidableEq

/-- §3: an immutable Prompt Pack — a use-case identifier and an ordered list
of required criteria. -/
structure PromptPack where
  useCase : String
  requiredCriteria : List Criterion
deriving Repr, DecidableEq

/-- Modelled from the spec (§4.5, §9): the structured verdict returned by the
reasoning oracle for one criterion. -/
structure Verdict where
  passed : Bool
  confidence : ℚ
  rationale : String
  evidence : List ℕ
deriving Repr, DecidableEq

/-- §3, src/backend/P1_FEATURES.md `readiness_checks`: one evaluation of one
criterion — pass/fail status, confidence, rationale and evidence source
references. -/
structure ReadinessCheck where
  criterionName : String
  passed : Bool
  confidence : ℚ
  rationale : String
  evidence : List ℕ
deriving Repr, DecidableEq

/-- Modelled from the spec (§4.5): the ReadinessCheck recorded for one
criterion from the oracle's verdict. -/
def mkCheck (c : Criterion) (v : Verdict) : ReadinessCheck :=
  { criterionName := c.name
    passed := v.passed
    confidence := v.confidence
    rationale := v.rationale
    evidence := v.evidence }

/-- Modelled from the spec (§6): the result object of an
`evaluateReadiness` call. -/
structure ReadinessResult where
  checks : List ReadinessCheck
  readinessScore : ℚ
  isReady : Bool
deriving Repr, DecidableEq

/-- Modelled from the spec (§4.5): one readiness-evaluation run — for each
required criterion of the bound Prompt Pack, call the oracle once and record
a fresh ReadinessCheck; the new checks are appended to the stored history
(prior checks are never mutated), the readiness percentage is
checksPassed / checksTotal × 100, and the Analysis is ready exactly when
every required criterion's fresh check passed.  Returns the new stored
history and the result object. -/
def evaluateReadiness (pack : PromptPack) (oracle : Criterion → Verdict)
    (history : List ReadinessCheck) :
    List ReadinessCheck × ReadinessResult :=
  let newChecks := pack.requiredCriteria.map (fun c => mkCheck c (oracle c))
  let total := newChecks.length
  let passed := (newChecks.filter (fun ch => ch.passed)).length
  (history ++ newChecks,
   { checks := newChecks
     readinessScore := if total = 0 then 100 else (passed : ℚ) / (total : ℚ) * 100
     isReady := newChecks.all (fun ch => ch.passed) })

/-- §4.5: the latest ReadinessCheck recorded for a criterion name — the last
matching entry of the stored history. -/
def latestCheck (history : List ReadinessCheck) (name : String) :
    Option ReadinessCheck :=
  (history.filter (fun ch => ch.criterionName = name)).getLast?

/-- Modelled from the spec (§3, §6): the Analysis data a `score` call reads —
the weighted source set and the bound Prompt Pack (none when the referenced
pack is missing). -/
structure Analysis where
  sources : List WeightedSource
  pack : Option PromptPack
deriving Repr, DecidableEq

/-- Modelled from the spec (§6, §7): the fatal input-error class of a
`score` call. -/
inductive ScoreError where
  | promptPackNotFound
deriving Repr, DecidableEq

/-- Modelled from the spec (§6): the `score` entry point — fatal only when
the Prompt Pack reference is missing; every other input, the empty source
set included, yields a result object (possibly with warnings). -/
def score (a : Analysis)
    (oracle : WeightedSource → WeightedSource → List Severity)
    (qualityMultiplier : ℚ) : Except ScoreError ScoreResult :=
  match a.pack with
  | none => .error .promptPackNotFound
  | some _ => .ok (scoreAnalysis oracle qualityMultiplier a.sources)

/-! ## History Tracker (spec §4.6) -/

/-- §3, src/backend/P1_FEATURES.md `readiness_logs.trigger_event`: the
trigger reason of a history snapshot. -/
inductive Trigger where
  | sourceAdded
  | manualTrigger
  | reanalysis
deriving Repr, DecidableEq

/-- Modelled from the spec (§4.6): the snapshot data one Aggregator run
hands the History Tracker. -/
structure Snapshot where
  score : ℚ
  veracity : ℚ
  conflict : ℚ
  logic : ℚ
  sourceCount : ℕ
  authoritativeCount : ℕ
  trigger : Trigger
deriving Repr, DecidableEq

/-- §3, src/backend/P1_FEATURES.md `readiness_logs`: one append-only history
entry — the scores, counts, trigger reason, and the delta from the previous
entry (none for the first entry of an Analysis). -/
structure ReadinessLogEntry where
  score : ℚ
  veracity : ℚ
  conflict : ℚ
  logic : ℚ
  sourceCount : ℕ
  authoritativeCount : ℕ
  delta : Option ℚ
  trigger : Trigger
deriving Repr, DecidableEq

/-- Modelled from the spec (§4.6): append a snapshot to an Analysis's
history, computing the delta from the latest prior entry (none when the
history is empty). -/
def appendEntry (history : List ReadinessLogEntry) (s : Snapshot) :
    List ReadinessLogEntry :=
  history ++
    [{ score := s.score
       veracity := s.veracity
       conflict := s.conflict
       logic := s.logic
       sourceCount := s.sourceCount
       authoritativeCount := s.authoritativeCount
       delta := match history.getLast? with
         | none => none
         | some prev => some (s.score - prev.score)
       trigger := s.trigger }]

/-- Modelled from the spec (§4.6): the history of an Analysis after a
sequence of Aggregator runs, starting from the empty history. -/
def historyOfRuns (runs : List Snapshot) : List ReadinessLogEntry :=
  runs.foldl appendEntry []

/-! ## Analysis source set (src/backend/P1_FEATURES.md `analysis_sources`) -/

/-- src/backend/P1_FEATURES.md `analysis_sources`: one row binding a Source
to an Analysis, with the per-analysis weight and optional inclusion
rationale. -/
structure AnalysisSource where
  sourceId : ℕ
  weight : ℚ
  inclusionReason : Option String
deriving Repr, DecidableEq

/-- Modelled from the spec (§3, §7): errors rejecting a source binding. -/
inductive AddSourceError where
  | duplicateSource
  | nonPositiveWeight
deriving Repr, DecidableEq

/-- Modelled from the spec (§3): add a Source to an Analysis's source set.
The weight defaults to 1.0 when none is given
(src/backend/P1_FEATURES.md: `weight FLOAT DEFAULT 1.0`); a binding of an
already-included source is rejected by the uniqueness constraint
(`CONSTRAINT unique_analysis_source UNIQUE (analysis_id, source_id)`); a
non-positive weight is rejected to keep the per-analysis weight a positive
real (§3 invariants). -/
def addSource (rows : List AnalysisSource) (sid : ℕ) (w : Option ℚ)
    (reason : Option String) : Except AddSourceError (List AnalysisSource) :=
  if rows.any (fun r => r.sourceId = sid) then
    .error .duplicateSource
  else if w.getD 1 ≤ 0 then
    .error .nonPositiveWeight
  else
    .ok (rows ++ [{ sourceId := sid, weight := w.getD 1,
                    inclusionReason := reason }])

/-- A concrete two-word source containing one executive keyword, used to
instantiate universally quantified results at a concrete input. -/
def sampleKeywordSource : WeightedSource where
  source :=
    { srcType := .finalPDF
      authoritative := true
      status := .final
      ageDays := some 0
      words := ["risk", "budget"] }
  weight := 1

/-- A concrete criterion for instantiating readiness results. -/
def sampleCriterion : Criterion :=
  { name := "Decision Log Present", category := .completeness }

/-- A second concrete criterion with a distinct name. -/
def sampleCriterion2 : Criterion :=
  { name := "Success Metrics Quantified", category := .quality }

/-- A concrete two-criterion Prompt Pack. -/
def samplePack : PromptPack :=
  { useCase := "strategy", requiredCriteria := [sampleCriterion, sampleCriterion2] }

/-- A concrete oracle that passes every criterion. -/
def sampleOracleTrue : Criterion → Verdict :=
  fun _ => { passed := true, confidence := 9/10,
             rationale := "supported", evidence := [1] }

/-- A concrete previously recorded check. -/
def samplePriorCheck : ReadinessCheck :=
  { criterionName := "Decision Log Present", passed := false,
    confidence := 1/2, rationale := "missing", evidence := [] }

/-- The delta invariant of a readiness history: consecutive entries differ
by exactly the recorded delta, and the first entry has no delta. -/
def deltaOk (l : List ReadinessLogEntry) : Prop :=
  (∀ i : ℕ, ∀ a b : ReadinessLogEntry,
      l[i]? = some a → l[i+1]? = some b → b.delta = some (b.score - a.score))
    ∧ ∀ a : ReadinessLogEntry, l[0]? = some a → a.delta = none

/-- A concrete first snapshot, score 10. -/
def snapA : Snapshot :=
  { score := 10, veracity := 10, conflict := 100, logic := 0,
    sourceCount := 1, authoritativeCount := 1, trigger := .sourceAdded }

/-- A concrete second snapshot, score 30. -/
def snapB : Snapshot :=
  { score := 30, veracity := 40, conflict := 100, logic := 10,
    sourceCount := 2, authoritativeCount := 1, trigger := .sourceAdded }

/-- The first log entry of the two-run history: no delta. -/
def logEntryA : ReadinessLogEntry :=
  { score := 10, veracity := 10, conflict := 100, logic := 0,
    sourceCount := 1, authoritativeCount := 1, delta := none,
    trigger := .sourceAdded }

/-- The second log entry of the two-run history: delta 30 − 10. -/
def logEntryB : ReadinessLogEntry :=
  { score := 30, veracity := 40, conflict := 100, logic := 10,
    sourceCount := 2, authoritativeCount := 1, delta := some 20,
    trigger := .sourceAdded }

/-! ## Helper lemmas -/

lemma clamp_nonneg (x : ℚ) : 0 ≤ clamp x := le_max_left 0 _

lemma clamp_le_hundred (x : ℚ) : clamp x ≤ 100 :=
  max_le (by norm_num) (min_le_left 100 x)

lemma authorityMultiplier_nonneg (b : Bool) : 0 ≤ authorityMultiplier b := by
  cases b <;> norm_num [authorityMultiplier]

lemma authorityMultiplier_le (b : Bool) : authorityMultiplier b ≤ 3/2 := by
  cases b <;> norm_num [authorityMultiplier]

lemma typeWeight_nonneg (t : SourceType) : 0 ≤ typeWeight t := by
  cases t <;> norm_num [typeWeight]

lemma typeWeight_le_one (t : SourceType) : typeWeight t ≤ 1 := by
  cases t <;> norm_num [typeWeight]

lemma statusWeight_nonneg (st : Status) : 0 ≤ statusWeight st := by
  cases st <;> norm_num [statusWeight]

lemma statusWeight_le_one (st : Status) : statusWeight st ≤ 1 := by
  cases st <;> norm_num [statusWeight]

lemma recencyBoost_nonneg (o : Option ℕ) : 0 ≤ recencyBoost o := by
  rcases o with _ | d
  · norm_num [recencyBoost]
  · simp only [recencyBoost]
    split_ifs <;> norm_num

lemma recencyBoost_le (o : Option ℕ) : recencyBoost o ≤ 6/5 := by
  rcases o with _ | d
  · norm_num [recencyBoost]
  · simp only [recencyBoost]
    split_ifs <;> norm_num

lemma filter_fresh_checks_of_not_mem (oracle : Criterion → Verdict)
    (l : List Criterion) (n : String) (h : n ∉ l.map Criterion.name) :
    (l.map (fun c => mkCheck c (oracle c))).filter
        (fun ch => ch.criterionName = n) = [] := by
  induction l with
  | nil => rfl
  | cons d rest ih =>
    simp only [List.map_cons, List.mem_cons, not_or] at h
    simp only [List.map_cons, List.filter_cons]
    have hne : ¬(mkCheck d (oracle d)).criterionName = n := by
      simp only [mkCheck]
      exact fun he => h.1 he.symm
    simp only [decide_eq_true_eq, if_neg hne]
    exact ih h.2

lemma filter_fresh_checks_of_mem (oracle : Criterion → Verdict)
    (c : Criterion) (l : List Criterion) (hc : c ∈ l)
    (hnodup : (l.map Criterion.name).Nodup) :
    (l.map (fun c' => mkCheck c' (oracle c'))).filter
        (fun ch => ch.criterionName = c.name) = [mkCheck c (oracle c)] := by
  induction l with
  | nil => cases hc
  | cons d rest ih =>
    simp only [List.map_cons, List.nodup_cons] at hnodup
    rcases List.mem_cons.mp hc with heq | hmem
    · subst heq
      simp only [List.map_cons, List.filter_cons]
      have hd : (mkCheck c (oracle c)).criterionName = c.name := rfl
      simp only [decide_eq_true_eq, if_pos hd]
      rw [filter_fresh_checks_of_not_mem oracle rest c.name hnodup.1]
    · have hne : ¬(mkCheck d (oracle d)).criterionName = c.name := by
        simp only [mkCheck]
        intro he
        exact hnodup.1 (he ▸ List.mem_map.mpr ⟨c, hmem, rfl⟩)
      simp only [List.map_cons, List.filter_cons, decide_eq_true_eq,
        if_neg hne]
      exact ih hmem hnodup.2

lemma latestCheck_after_run (pack : PromptPack) (oracle : Criterion → Verdict)
    (history : List ReadinessCheck)
    (hnodup : (pack.requiredCriteria.map Criterion.name).Nodup)
    (c : Criterion) (hc : c ∈ pack.requiredCriteria) :
    latestCheck (evaluateReadiness pack oracle history).1 c.name
      = some (mkCheck c (oracle c)) := by
  show ((history ++ pack.requiredCriteria.map fun c' => mkCheck c' (oracle c')).filter
      (fun ch => ch.criterionName = c.name)).getLast? = _
  rw [List.filter_append,
    filter_fresh_checks_of_mem oracle c pack.requiredCriteria hc hnodup,
    List.getLast?_concat]

lemma deltaOk_nil : deltaOk [] := ⟨fun i a b ha _ => by simp at ha,
  fun a ha => by simp at ha⟩

lemma deltaOk_appendEntry (l : List ReadinessLogEntry) (s : Snapshot)
    (h : deltaOk l) : deltaOk (appendEntry l s) := by
  obtain ⟨h1, h0⟩ := h
  unfold appendEntry
  constructor
  · intro i a b ha hb
    by_cases hi : i + 1 < l.length
    · rw [List.getElem?_append_left (by omega)] at ha
      rw [List.getElem?_append_left hi] at hb
      exact h1 i a b ha hb
    · by_cases hi2 : i + 1 = l.length
      · have hia : i < l.length := by omega
        rw [List.getElem?_append_left hia] at ha
        have hlast : l.getLast? = some a := by
          rw [List.getLast?_eq_getElem?]
          rw [show l.length - 1 = i from by omega]
          exact ha
        rw [show i + 1 = l.length from hi2] at hb
        rw [List.getElem?_concat_length] at hb
        rw [hlast] at hb
        have hb' := (Option.some_inj.mp hb).symm
        subst hb'
        simp
      · rw [List.getElem?_append_right (by omega)] at hb
        rw [show i + 1 - l.length = (i - l.length) + 1 from by omega] at hb
        simp at hb
  · intro a ha
    cases l with
    | nil =>
      simp only [List.nil_append, List.getElem?_cons_zero] at ha
      have ha' := (Option.some_inj.mp ha).symm
      subst ha'
      simp
    | cons x xs =>
      rw [List.getElem?_append_left (by simp)] at ha
      exact h0 a ha

lemma deltaOk_foldl (runs : List Snapshot) :
    ∀ l : List ReadinessLogEntry, deltaOk l →
      deltaOk (runs.foldl appendEntry l) := by
  induction runs with
  | nil => exact fun l h => h
  | cons s rest ih => exact fun l h => ih _ (deltaOk_appendEntry l s h)

/-! ## Claim theorems -/

/-- C1: for every oracle, quality multiplier and source set, the composite
rigor score returned by a scoring run equals
0.4 × V + 0.3 × C + 0.3 × L, where V, C and L are the three component
scores each independently clamped to [0,100] before the weighted sum. -/
theorem composite_is_weighted_clamped_sum
    (oracle : WeightedSource → WeightedSource → List Severity)
    (q : ℚ) (sources : List WeightedSource) :
    (scoreAnalysis oracle q sources).composite =
        2/5 * clamp (rawVeracity sources)
        + 3/10 * clamp (rawConflict oracle sources)
        + 3/10 * clamp (rawLogic sources q)
      ∧ (scoreAnalysis oracle q sources).veracity = clamp (rawVeracity sources)
      ∧ (scoreAnalysis oracle q sources).conflict =
          clamp (rawConflict oracle sources)
      ∧ (scoreAnalysis oracle q sources).logic = clamp (rawLogic sources q) :=
  ⟨rfl, rfl, rfl, rfl⟩

/-- C2: for every oracle, quality multiplier and source set (any weights,
authority flags, types, statuses and dates), the three sub-scores V, C, L
and the composite score of a scoring run all lie in [0,100]. -/
theorem scores_lie_in_unit_interval
    (oracle : WeightedSource → WeightedSource → List Severity)
    (q : ℚ) (sources : List WeightedSource) :
    0 ≤ (scoreAnalysis oracle q sources).veracity
      ∧ (scoreAnalysis oracle q sources).veracity ≤ 100
      ∧ 0 ≤ (scoreAnalysis oracle q sources).conflict
      ∧ (scoreAnalysis oracle q sources).conflict ≤ 100
      ∧ 0 ≤ (scoreAnalysis oracle q sources).logic
      ∧ (scoreAnalysis oracle q sources).logic ≤ 100
      ∧ 0 ≤ (scoreAnalysis oracle q sources).composite
      ∧ (scoreAnalysis oracle q sources).composite ≤ 100 := by
  have hV0 : 0 ≤ clamp (rawVeracity sources) := clamp_nonneg _
  have hV1 : clamp (rawVeracity sources) ≤ 100 := clamp_le_hundred _
  have hC0 : 0 ≤ clamp (rawConflict oracle sources) := clamp_nonneg _
  have hC1 : clamp (rawConflict oracle sources) ≤ 100 := clamp_le_hundred _
  have hL0 : 0 ≤ clamp (rawLogic sources q) := clamp_nonneg _
  have hL1 : clamp (rawLogic sources q) ≤ 100 := clamp_le_hundred _
  refine ⟨hV0, hV1, hC0, hC1, hL0, hL1, ?_, ?_⟩
  · show (0 : ℚ) ≤ 2/5 * clamp (rawVeracity sources)
      + 3/10 * clamp (rawConflict oracle sources)
      + 3/10 * clamp (rawLogic sources q)
    linarith
  · show (2/5 * clamp (rawVeracity sources)
      + 3/10 * clamp (rawConflict oracle sources)
      + 3/10 * clamp (rawLogic sources q) : ℚ) ≤ 100
    linarith

/-- C3: when the Prompt Pack's criterion names are distinct,
evaluateReadiness reports isReady = true exactly when every required
criterion's latest ReadinessCheck after the run is passed, and readiness is
never granted below 100% of criteria: a ready run has readiness score
100. -/
theorem readiness_iff_all_latest_passed (pack : PromptPack)
    (oracle : Criterion → Verdict) (history : List ReadinessCheck)
    (hnodup : (pack.requiredCriteria.map Criterion.name).Nodup) :
    ((evaluateReadiness pack oracle history).2.isReady = true ↔
        ∀ c ∈ pack.requiredCriteria,
          ∃ ch : ReadinessCheck,
            latestCheck (evaluateReadiness pack oracle history).1 c.name
                = some ch
              ∧ ch.passed = true)
      ∧ ((evaluateReadiness pack oracle history).2.isReady = true →
          (evaluateReadiness pack oracle history).2.readinessScore = 100) := by
  constructor
  · constructor
    · intro hReady c hc
      refine ⟨mkCheck c (oracle c),
        latestCheck_after_run pack oracle history hnodup c hc, ?_⟩
      have hall : ∀ ch ∈ pack.requiredCriteria.map
          (fun c' => mkCheck c' (oracle c')), ch.passed = true := by
        have := hReady
        simp only [evaluateReadiness, List.all_eq_true] at this
        exact this
      exact hall _ (List.mem_map.mpr ⟨c, hc, rfl⟩)
    · intro hall
      show (pack.requiredCriteria.map fun c => mkCheck c (oracle c)).all
        (fun ch => ch.passed) = true
      rw [List.all_eq_true]
      intro ch hch
      rcases List.mem_map.mp hch with ⟨c, hc, rfl⟩
      rcases hall c hc with ⟨ch', hlatest, hpass⟩
      rw [latestCheck_after_run pack oracle history hnodup c hc] at hlatest
      rw [← Option.some_inj.mp hlatest] at hpass
      exact hpass
  · intro hReady
    have hall : ∀ ch ∈ pack.requiredCriteria.map
        (fun c' => mkCheck c' (oracle c')), (fun ch => ch.passed) ch = true := by
      have := hReady
      simp only [evaluateReadiness, List.all_eq_true] at this
      exact this
    have hfilter : (pack.requiredCriteria.map
        (fun c' => mkCheck c' (oracle c'))).filter (fun ch => ch.passed)
        = pack.requiredCriteria.map (fun c' => mkCheck c' (oracle c')) :=
      List.filter_eq_self.mpr hall
    show (if (pack.requiredCriteria.map fun c => mkCheck c (oracle c)).length = 0
        then (100 : ℚ)
        else ((((pack.requiredCriteria.map fun c => mkCheck c (oracle c)).filter
            (fun ch => ch.passed)).length : ℚ)
          / ((pack.requiredCriteria.map fun c => mkCheck c (oracle c)).length : ℚ)
          * 100)) = 100
    rw [hfilter]
    by_cases hlen : (pack.requiredCriteria.map fun c => mkCheck c (oracle c)).length = 0
    · simp [hlen]
    · rw [if_neg hlen, div_self (by exact_mod_cast hlen), one_mul]

/-- Witness for C3: the two-criterion pack under the all-pass oracle is
ready and has readiness score 100. -/
theorem readiness_iff_all_latest_passed_witness :
    (evaluateReadiness samplePack sampleOracleTrue []).2.isReady = true
      ∧ (evaluateReadiness samplePack sampleOracleTrue []).2.readinessScore
        = 100 := by
  constructor
  · decide
  · exact (readiness_iff_all_latest_passed samplePack sampleOracleTrue []
      (by decide)).2 (by decide)

/-- C4: calling score on an Analysis whose source set is empty completes
without a fatal error (the call returns an ok result object, with no
division by zero on the empty average), with V = 0, C = 100 and the
empty-source-set warning attached. -/
theorem score_on_empty_source_set
    (pack : PromptPack)
    (oracle : WeightedSource → WeightedSource → List Severity) (q : ℚ) :
    ∃ r : ScoreResult,
      score { sources := [], pack := some pack } oracle q = .ok r
        ∧ r.veracity = 0 ∧ r.conflict = 100
        ∧ Warning.emptySourceSet ∈ r.warnings := by
  refine ⟨scoreAnalysis oracle q [], rfl, ?_, ?_, ?_⟩
  · show clamp (rawVeracity []) = 0
    simp [rawVeracity, clamp]
  · show clamp (rawConflict oracle []) = 100
    simp [rawConflict, sourcePairs, clamp]
  · simp [scoreAnalysis]

/-- C5: in the history produced by any sequence of Aggregator runs, every
entry after the first records a delta equal to its composite score minus
the immediately preceding entry's composite score, and the first entry of
an Analysis has no delta. -/
theorem history_delta_matches_scores (runs : List Snapshot) :
    (∀ i : ℕ, ∀ a b : ReadinessLogEntry,
        (historyOfRuns runs)[i]? = some a →
        (historyOfRuns runs)[i+1]? = some b →
        b.delta = some (b.score - a.score))
      ∧ ∀ a : ReadinessLogEntry,
          (historyOfRuns runs)[0]? = some a → a.delta = none :=
  deltaOk_foldl runs [] deltaOk_nil

/-- Witness for C5: in the concrete two-run history with scores 10 and 30,
the second entry's delta is 30 − 10 = 20 and the first entry's delta is
none. -/
theorem history_delta_matches_scores_witness :
    logEntryB.delta = some (logEntryB.score - logEntryA.score)
      ∧ logEntryA.delta = none := by
  have h1 : (historyOfRuns [snapA, snapB])[0]? = some logEntryA := by
    simp [historyOfRuns, appendEntry, snapA, snapB, logEntryA]
  have h2 : (historyOfRuns [snapA, snapB])[0 + 1]? = some logEntryB := by
    simp only [historyOfRuns, List.foldl_cons, List.foldl_nil]
    simp [appendEntry, snapA, snapB, logEntryB]
    norm_num
  exact ⟨(history_delta_matches_scores [snapA, snapB]).1 0 logEntryA logEntryB
      h1 h2,
    (history_delta_matches_scores [snapA, snapB]).2 logEntryA h1⟩

/-- C6: every Source's veracity factor is the product
authorityMultiplier × typeWeight × statusWeight × recencyBoost under the
fixed tables, unknown types fall to the lowest tier without error, no
factor exceeds 9/5, and a single authoritative final-PDF dated today
attains the maximum 1.5 × 1.0 × 1.0 × 1.2 = 9/5. -/
theorem veracity_factor_product_and_max :
    (∀ s : Source, factor s =
        authorityMultiplier s.authoritative * typeWeight s.srcType
          * statusWeight s.status * recencyBoost s.ageDays)
      ∧ (∀ tag : String, typeWeight (.unknown tag) = typeWeight .draftDocument)
      ∧ (∀ s : Source, factor s ≤ 9/5)
      ∧ factor { srcType := .finalPDF, authoritative := true, status := .final,
                 ageDays := some 0, words := [] } = 3/2 * 1 * 1 * (6/5) := by
  refine ⟨fun s => rfl, fun tag => rfl, ?_, by norm_num [factor,
    authorityMultiplier, typeWeight, statusWeight, recencyBoost]⟩
  intro s
  have hA0 := authorityMultiplier_nonneg s.authoritative
  have hA1 := authorityMultiplier_le s.authoritative
  have hT0 := typeWeight_nonneg s.srcType
  have hT1 := typeWeight_le_one s.srcType
  have hS0 := statusWeight_nonneg s.status
  have hS1 := statusWeight_le_one s.status
  have hR0 := recencyBoost_nonneg s.ageDays
  have hR1 := recencyBoost_le s.ageDays
  have h1 : authorityMultiplier s.authoritative * typeWeight s.srcType ≤ 3/2 := by
    nlinarith
  have h2 : authorityMultiplier s.authoritative * typeWeight s.srcType
      * statusWeight s.status ≤ 3/2 := by
    nlinarith
  have h3 : 0 ≤ authorityMultiplier s.authoritative * typeWeight s.srcType
      * statusWeight s.status := by positivity
  calc factor s = authorityMultiplier s.authoritative * typeWeight s.srcType
      * statusWeight s.status * recencyBoost s.ageDays := rfl
    _ ≤ 3/2 * (6/5) := mul_le_mul h2 hR1 hR0 (by norm_num)
    _ = 9/5 := by norm_num

/-- C7: the Logic Presence score equals
min(100, (matchCount / totalWordCount) × 1000 × qualityMultiplier) whenever
the concatenated source text has at least one word, and an input with zero
total words yields L = 0 instead of a division error. -/
theorem logic_presence_formula_and_zero_words
    (sources : List WeightedSource) (q : ℚ) :
    (totalWordCount sources = 0 → rawLogic sources q = 0)
      ∧ (totalWordCount sources ≠ 0 → rawLogic sources q =
          min 100 ((matchCount sources : ℚ) / (totalWordCount sources : ℚ)
            * 1000 * q)) := by
  constructor
  · intro h
    simp [rawLogic, h]
  · intro h
    simp [rawLogic, h]

/-- Witness for C7 at concrete inputs: the empty source set has zero words
and L = 0; a two-word source containing one keyword has
L = min(100, 1/2 × 1000 × 1). -/
theorem logic_presence_formula_and_zero_words_witness :
    rawLogic [] 1 = 0
      ∧ rawLogic [sampleKeywordSource] 1 =
        min 100 ((1 : ℚ) / 2 * 1000 * 1) := by
  constructor
  · exact (logic_presence_formula_and_zero_words [] 1).1 rfl
  · have h := (logic_presence_formula_and_zero_words
      [sampleKeywordSource] 1).2 (by decide)
    have hm : matchCount [sampleKeywordSource] = 1 := by decide
    have ht : totalWordCount [sampleKeywordSource] = 2 := by decide
    rw [h, hm, ht]
    norm_num

/-- C8: re-running readiness evaluation only creates new ReadinessCheck
records — the stored history grows by exactly one fresh check per required
criterion, and every previously recorded check is unchanged at its
position, with all of its fields intact. -/
theorem rerun_only_appends_checks (pack : PromptPack)
    (oracle : Criterion → Verdict) (history : List ReadinessCheck) :
    ((evaluateReadiness pack oracle history).1).length
        = history.length + pack.requiredCriteria.length
      ∧ ∀ i : ℕ, i < history.length →
        ((evaluateReadiness pack oracle history).1)[i]? = history[i]? := by
  constructor
  · show (history ++ pack.requiredCriteria.map fun c => mkCheck c (oracle c)).length = _
    simp
  · intro i h
    show (history ++ pack.requiredCriteria.map fun c => mkCheck c (oracle c))[i]? = _
    exact List.getElem?_append_left h

/-- Witness for C8: re-running the two-criterion pack over a one-check
history yields three stored checks and leaves the prior check unchanged. -/
theorem rerun_only_appends_checks_witness :
    ((evaluateReadiness samplePack sampleOracleTrue [samplePriorCheck]).1).length
        = [samplePriorCheck].length + samplePack.requiredCriteria.length
      ∧ ((evaluateReadiness samplePack sampleOracleTrue
          [samplePriorCheck]).1)[0]? = [samplePriorCheck][0]? := by
  have h := rerun_only_appends_checks samplePack sampleOracleTrue [samplePriorCheck]
  exact ⟨h.1, h.2 0 (by decide)⟩

/-- C9: a successful addSource keeps every per-analysis weight strictly
positive, and a Source added without an explicit weight receives the
default weight 1.0. -/
theorem source_weight_positive_default_one
    (rows : List AnalysisSource) (sid : ℕ) (w : Option ℚ)
    (reason : Option String) (rows' : List AnalysisSource)
    (hok : addSource rows sid w reason = .ok rows') :
    ((∀ r ∈ rows, 0 < r.weight) → ∀ r ∈ rows', 0 < r.weight)
      ∧ (w = none →
          rows'.getLast? =
            some { sourceId := sid, weight := 1, inclusionReason := reason }) := by
  unfold addSource at hok
  split_ifs at hok with hdup hw
  simp only [Except.ok.injEq] at hok
  subst hok
  constructor
  · intro hall r hr
    rcases List.mem_append.mp hr with h | h
    · exact hall r h
    · simp only [List.mem_singleton] at h
      subst h
      exact lt_of_not_le hw
  · intro hnone
    subst hnone
    simp [List.getLast?_concat, Option.getD]

/-- Witness for C9: adding source 5 with no explicit weight to an empty
source set succeeds, keeps all weights positive, and records weight 1.0. -/
theorem source_weight_positive_default_one_witness :
    ((∀ r ∈ ([] : List AnalysisSource), 0 < r.weight) →
        ∀ r ∈ [({ sourceId := 5, weight := 1, inclusionReason := none } :
          AnalysisSource)], 0 < r.weight)
      ∧ ((none : Option ℚ) = none →
          ([({ sourceId := 5, weight := 1, inclusionReason := none } :
              AnalysisSource)]).getLast? =
            some { sourceId := 5, weight := 1, inclusionReason := none }) :=
  source_weight_positive_default_one [] 5 none none
    [{ sourceId := 5, weight := 1, inclusionReason := none }]
    (by norm_num [addSource])

/-- C10: binding an already-included Source to an Analysis is rejected by
the uniqueness constraint, and every successful addSource preserves
distinctness of the bound source ids, so no source ever appears twice with
a second weight. -/
theorem analysis_source_set_no_duplicates
    (rows : List AnalysisSource) (sid : ℕ) (w : Option ℚ)
    (reason : Option String) :
    (rows.any (fun r => r.sourceId = sid) = true →
        addSource rows sid w reason = .error .duplicateSource)
      ∧ (∀ rows', addSource rows sid w reason = .ok rows' →
          (rows.map (fun r => r.sourceId)).Nodup →
          (rows'.map (fun r => r.sourceId)).Nodup) := by
  constructor
  · intro hdup
    unfold addSource
    simp [hdup]
  · intro rows' hok hnodup
    unfold addSource at hok
    split_ifs at hok with hdup hw
    simp only [Except.ok.injEq] at hok
    subst hok
    have hsid : sid ∉ rows.map (fun r => r.sourceId) := by
      intro hmem
      rcases List.mem_map.mp hmem with ⟨r, hr, hrs⟩
      exact hdup (List.any_eq_true.mpr ⟨r, hr, by simp [hrs]⟩)
    simp only [List.map_append, List.map_cons, List.map_nil]
    rw [List.nodup_append]
    refine ⟨hnodup, List.nodup_singleton _, ?_⟩
    intro a ha hb
    simp only [List.mem_singleton] at hb
    subst hb
    exact hsid ha

/-- Witness for C10: with source 5 already bound, rebinding it is rejected;
binding source 6 instead succeeds and keeps the ids distinct. -/
theorem analysis_source_set_no_duplicates_witness :
    (([({ sourceId := 5, weight := 1, inclusionReason := none } :
          AnalysisSource)]).any (fun r => r.sourceId = 5) = true →
        addSource [{ sourceId := 5, weight := 1, inclusionReason := none }]
          5 none none = .error .duplicateSource)
      ∧ (([({ sourceId := 5, weight := 1, inclusionReason := none } :
          AnalysisSource)]).map (fun r => r.sourceId)).Nodup := by
  constructor
  · exact (analysis_source_set_no_duplicates
      [{ sourceId := 5, weight := 1, inclusionReason := none }] 5 none none).1
  · exact (analysis_source_set_no_duplicates
      [] 5 none none).2
      [{ sourceId := 5, weight := 1, inclusionReason := none }]
      (by norm_num [addSource]) (by decide)

end LIW
